import Mathlib

/-!
Alert API handlers (`pkg/api/alerting.go`)

A shallow embedding of the alert handlers of `pkg/api/alerting.go` and the
properties of tenant checks, id checks and dashboard-URI decoration.

Modelling conventions.

* Go `int64` identifiers (`Id`, `OrgId`, `DashboardId`, `AlertId`) are only ever
  compared (`==`, `!=`, `== 0`), never computed with, so they are embedded as `Int`.
* `bus.Dispatch` calls a handler registered elsewhere.  The registered handlers
  are a parameter (`Bus`): each one reads and may change the store `σ` and
  returns an error or a result.  Every dispatch is also appended to a trace, so
  that "the command was (not) dispatched" is a statement about the trace.
* `ApiError(status, message, err)` and `Json(status, body)` are embedded as the
  two constructors of `Response`, recording the arguments of the call.
-/

namespace Alerting

/-- Alert rule of package `models`, with the fields `GetAlerts` reads.  The
identifiers are `int64`; the remaining fields are only copied by the handlers,
their values are taken from a parameter type `V`. -/
structure AlertRule (V : Type) where
  id : Int
  orgId : Int
  dashboardId : Int
  panelId : Int
  query : V
  queryRefId : V
  warnLevel : V
  critLevel : V
  interval : V
  title : V
  description : V
  queryRange : V
  aggregator : V
  state : V
  deriving DecidableEq

/-- The `dtos.AlertRuleDTO` built by `GetAlerts`; the field name `dashbboardUri`
is spelled as in the source. -/
structure AlertRuleDTO (V : Type) where
  id : Int
  dashboardId : Int
  panelId : Int
  query : V
  queryRefId : V
  warnLevel : V
  critLevel : V
  interval : V
  title : V
  description : V
  queryRange : V
  aggregator : V
  state : V
  dashbboardUri : String
  deriving DecidableEq

/-- Dashboard as returned by `GetDashboardsQuery`: the two fields the handler reads. -/
structure Dashboard where
  id : Int
  slug : String
  deriving DecidableEq

/-- The command `models.UpdateAlertStateCommand`: `alertId` is the only field the
handler reads, `payload` stands for the others (requested state, info). -/
structure UpdateAlertStateCommand (V : Type) where
  alertId : Int
  payload : V
  deriving DecidableEq

/-- The part of `middleware.Context` the handlers use: the signed-in
organisation `c.OrgId` and the value of `c.ParamsInt64(":alertId")`. -/
structure Context where
  orgId : Int
  paramAlertId : Int
  deriving DecidableEq

/-- Messages the handlers put on the bus. -/
inductive Msg (V : Type) where
  | getAlertByIdQuery (id : Int)
  | getAlertsQuery (orgId : Int)
  | getDashboardsQuery (dashboardIds : List Int)
  | deleteAlertCommand (alertId : Int)
  | updateAlertStateCommand (cmd : UpdateAlertStateCommand V)
  deriving DecidableEq

/-- Bodies passed to `Json`. -/
inductive Body (V R : Type) where
  | alertDTOs (l : List (AlertRuleDTO V))
  | alert (a : AlertRule V)
  | alertIdEcho (alertId : Int)
  | updateResult (r : R)
  deriving DecidableEq

/-- Responses: `ApiError(status, message, err)` and `Json(status, body)`. -/
inductive Response (V E R : Type) where
  | apiError (status : Nat) (message : String) (err : Option E)
  | json (status : Nat) (body : Body V R)
  deriving DecidableEq

/-- Status code of a response. -/
def Response.status {V E R : Type} : Response V E R → Nat
  | .apiError status _ _ => status
  | .json status _ => status

/-- Error written into the context by `c.JsonApiErr(status, message, err)`. -/
structure JsonApiErr (E : Type) where
  status : Nat
  message : String
  err : Option E
  deriving DecidableEq

/-- The handlers registered on the bus, one per message type.  A handler reads
and may change the store and answers with an error or with the `Result` it
writes into the message. -/
structure Bus (σ V E R : Type) where
  getAlertById : Int → σ → Except E (AlertRule V) × σ
  getAlerts : Int → σ → Except E (List (AlertRule V)) × σ
  getDashboards : List Int → σ → Except E (List Dashboard) × σ
  deleteAlert : Int → σ → Except E Unit × σ
  updateAlertState : UpdateAlertStateCommand V → σ → Except E R × σ

/-- The world a handler runs in: the store behind the bus and the trace of
messages dispatched so far. -/
structure World (σ V : Type) where
  store : σ
  trace : List (Msg V)
  deriving DecidableEq

variable {σ V E R α : Type}

/-- One `bus.Dispatch(&msg)`: run the registered handler on the store and record
the message on the trace. -/
def dispatch (h : σ → Except E α × σ) (m : Msg V) (w : World σ V) :
    Except E α × World σ V :=
  ((h w.store).1, ⟨(h w.store).2, w.trace ++ [m]⟩)

/-- `ValidateOrgAlert`: the response written into the context, if any. -/
def ValidateOrgAlert (bus : Bus σ V E R) (c : Context) (w : World σ V) :
    Option (JsonApiErr E) × World σ V :=
  let id := c.paramAlertId
  match dispatch (bus.getAlertById id) (Msg.getAlertByIdQuery id) w with
  | (.error _, w1) => (some ⟨404, "Alert not found", none⟩, w1)
  | (.ok result, w1) =>
    if c.orgId ≠ result.orgId then
      (some ⟨403, "You are not allowed to edit/view alert", none⟩, w1)
    else
      (none, w1)

/-- The DTO literal of the first loop of `GetAlerts`; `DashbboardUri` is not
set there and has the zero value. -/
def toDTO (alert : AlertRule V) : AlertRuleDTO V :=
  ⟨alert.id, alert.dashboardId, alert.panelId, alert.query, alert.queryRefId,
    alert.warnLevel, alert.critLevel, alert.interval, alert.title, alert.description,
    alert.queryRange, alert.aggregator, alert.state, ""⟩

/-- First loop of `GetAlerts`: appends to `dashboardIds` and `alertDTOs`. -/
def collect (result : List (AlertRule V)) : List Int × List (AlertRuleDTO V) :=
  result.foldl
    (fun acc alert => (acc.1 ++ [alert.dashboardId], acc.2 ++ [toDTO alert]))
    ([], [])

/-- Body of the inner loop of `GetAlerts`. -/
def setUri (alert : AlertRuleDTO V) (dash : Dashboard) : AlertRuleDTO V :=
  if alert.dashboardId = dash.id then
    { alert with dashbboardUri := "db/" ++ dash.slug }
  else
    alert

/-- Second (nested) loop of `GetAlerts`: every DTO is run through all dashboards. -/
def decorate (dashes : List Dashboard) (alertDTOs : List (AlertRuleDTO V)) :
    List (AlertRuleDTO V) :=
  alertDTOs.map (fun alert => dashes.foldl setUri alert)

/-- `GetAlerts` (GET /api/alerts). -/
def GetAlerts (bus : Bus σ V E R) (c : Context) (w : World σ V) :
    Response V E R × World σ V :=
  match dispatch (bus.getAlerts c.orgId) (Msg.getAlertsQuery c.orgId) w with
  | (.error err, w1) => (.apiError 500 "List alerts failed" (some err), w1)
  | (.ok result, w1) =>
    let dashboardIds := (collect result).1
    let alertDTOs := (collect result).2
    match dispatch (bus.getDashboards dashboardIds) (Msg.getDashboardsQuery dashboardIds) w1 with
    | (.error err, w2) => (.apiError 500 "List alerts failed" (some err), w2)
    | (.ok dashes, w2) => (.json 200 (.alertDTOs (decorate dashes alertDTOs)), w2)

/-- `GetAlert` (GET /api/alerts/:id). -/
def GetAlert (bus : Bus σ V E R) (c : Context) (w : World σ V) :
    Response V E R × World σ V :=
  let id := c.paramAlertId
  match dispatch (bus.getAlertById id) (Msg.getAlertByIdQuery id) w with
  | (.error err, w1) => (.apiError 500 "List alerts failed" (some err), w1)
  | (.ok result, w1) => (.json 200 (.alert result), w1)

/-- `DelAlert` (DEL /api/alerts/:id). -/
def DelAlert (bus : Bus σ V E R) (c : Context) (w : World σ V) :
    Response V E R × World σ V :=
  let alertId := c.paramAlertId
  if alertId = 0 then
    (.apiError 401 "Failed to parse alertid" none, w)
  else
    match dispatch (bus.deleteAlert alertId) (Msg.deleteAlertCommand alertId) w with
    | (.error err, w1) => (.apiError 500 "Failed to delete alert" (some err), w1)
    | (.ok _, w1) => (.json 200 (.alertIdEcho alertId), w1)

/-- `PutAlertState` (PUT /api/alerts/state/:id). -/
def PutAlertState (bus : Bus σ V E R) (c : Context) (cmd : UpdateAlertStateCommand V)
    (w : World σ V) : Response V E R × World σ V :=
  let alertId := c.paramAlertId
  if alertId ≠ cmd.alertId then
    (.apiError 401 "Bad Request" none, w)
  else
    match dispatch (bus.getAlertById alertId) (Msg.getAlertByIdQuery alertId) w with
    | (.error err, w1) => (.apiError 500 "Failed to get alertstate" (some err), w1)
    | (.ok result, w1) =>
      if result.orgId ≠ 0 ∧ result.orgId ≠ c.orgId then
        (.apiError 500 "Alert not found" none, w1)
      else
        match dispatch (bus.updateAlertState cmd) (Msg.updateAlertStateCommand cmd) w1 with
        | (.error err, w2) => (.apiError 500 "Failed to set new state" (some err), w2)
        | (.ok r, w2) => (.json 200 (.updateResult r), w2)

/-- Modelled from the spec: the route table that puts the Access Guard in front
of `GetAlert` and `DelAlert` is not in the source.  Section 4.1 of the spec has
the guard "called before any mutating operation reaches the Store" and section
2 has "the Access Guard authorizes; the Alert Store ... perform the operation".
The guard runs first; when it wrote a response, that response is the answer
and the handler does not run; otherwise the handler runs in the world the
guard left. -/
def guarded (handler : Bus σ V E R → Context → World σ V → Response V E R × World σ V)
    (bus : Bus σ V E R) (c : Context) (w : World σ V) :
    Except (JsonApiErr E) (Response V E R) × World σ V :=
  match ValidateOrgAlert bus c w with
  | (some denied, w1) => (.error denied, w1)
  | (none, w1) => (.ok (handler bus c w1).1, (handler bus c w1).2)

/-! ## A concrete bus

An in-memory store with handlers for the five messages, used to run the
handlers on concrete requests. -/

/-- In-memory store: the alerts and the dashboards it holds. -/
structure MemStore where
  alerts : List (AlertRule String)
  dashboards : List Dashboard
  deriving DecidableEq

/-- Handlers over the in-memory store. -/
def memBus : Bus MemStore String String (AlertRule String) where
  getAlertById id s :=
    (match s.alerts.find? (fun a => a.id = id) with
      | some a => .ok a
      | none => .error "no such alert", s)
  getAlerts orgId s := (.ok (s.alerts.filter (fun a => a.orgId = orgId)), s)
  getDashboards ids s := (.ok (s.dashboards.filter (fun d => d.id ∈ ids)), s)
  deleteAlert id s := (.ok (), ⟨s.alerts.filter (fun a => a.id ≠ id), s.dashboards⟩)
  updateAlertState cmd s :=
    match s.alerts.find? (fun a => a.id = cmd.alertId) with
    | some a =>
      (.ok { a with state := cmd.payload },
        ⟨s.alerts.map
          (fun b => if b.id = cmd.alertId then { b with state := cmd.payload } else b),
          s.dashboards⟩)
    | none => (.error "no such alert", s)

/-- An alert with the given id, organisation and dashboard. -/
def mkAlert (id orgId dashboardId : Int) : AlertRule String :=
  ⟨id, orgId, dashboardId, 1, "q", "A", "10", "20", "60", "t", "d", "5m", "avg", "OK"⟩

/-- Store with alerts 5, 6, 7 of organisation 1 on dashboards 1, 2, 3, the
unowned alert 8, and the dashboards 1 (slug foo) and 3 (slug bar). -/
def store0 : MemStore :=
  ⟨[mkAlert 5 1 1, mkAlert 6 1 2, mkAlert 7 1 3, mkAlert 8 0 1], [⟨1, "foo"⟩, ⟨3, "bar"⟩]⟩

/-- Store whose resolver answers with two dashboards of id 1 and different slugs. -/
def storeDup : MemStore :=
  ⟨[mkAlert 5 1 1], [⟨1, "first"⟩, ⟨1, "second"⟩]⟩

/-- Store with two alerts of organisation 1 on the same dashboard. -/
def storeShared : MemStore :=
  ⟨[mkAlert 5 1 4, mkAlert 6 1 4], [⟨4, "shared"⟩]⟩

/-! ## Lemmas on the two loops of `GetAlerts` -/

theorem collect_foldl (l : List (AlertRule V)) (acc : List Int × List (AlertRuleDTO V)) :
    l.foldl (fun acc alert => (acc.1 ++ [alert.dashboardId], acc.2 ++ [toDTO alert])) acc
      = (acc.1 ++ l.map (fun a => a.dashboardId), acc.2 ++ l.map toDTO) := by
  induction l generalizing acc with
  | nil => simp
  | cons a l ih => simp [ih]

theorem collect_eq (l : List (AlertRule V)) :
    collect l = (l.map (fun a => a.dashboardId), l.map toDTO) := by
  simp [collect, collect_foldl]

/-- An id occurs among the collected dashboard ids once per alert on it. -/
theorem count_dashboardId (l : List (AlertRule V)) (k : Int) :
    (l.map (fun a => a.dashboardId)).count k =
      (l.filter (fun a => decide (a.dashboardId = k))).length := by
  induction l with
  | nil => rfl
  | cons a l ih =>
    by_cases h : a.dashboardId = k
    · simp [List.count_cons, List.filter_cons, h, ih]
    · simp [List.count_cons, List.filter_cons, h, ih]

theorem setUri_dashboardId (a : AlertRuleDTO V) (d : Dashboard) :
    (setUri a d).dashboardId = a.dashboardId := by
  unfold setUri; split <;> rfl

theorem setUri_eta (a : AlertRuleDTO V) (d : Dashboard) :
    { setUri a d with dashbboardUri := "" } = { a with dashbboardUri := "" } := by
  unfold setUri; split <;> rfl

theorem foldl_setUri_eta (dashes : List Dashboard) (a : AlertRuleDTO V) :
    { dashes.foldl setUri a with dashbboardUri := "" } = { a with dashbboardUri := "" } := by
  induction dashes generalizing a with
  | nil => rfl
  | cons d ds ih => rw [List.foldl_cons, ih, setUri_eta]

theorem foldl_setUri_dashboardId (dashes : List Dashboard) (a : AlertRuleDTO V) :
    (dashes.foldl setUri a).dashboardId = a.dashboardId := by
  have h := congrArg AlertRuleDTO.dashboardId (foldl_setUri_eta dashes a)
  exact h

/-- No dashboard with the alert's dashboard id: the URI is left as it was. -/
theorem foldl_setUri_no_match (dashes : List Dashboard) (a : AlertRuleDTO V)
    (h : ∀ e ∈ dashes, a.dashboardId ≠ e.id) :
    (dashes.foldl setUri a).dashbboardUri = a.dashbboardUri := by
  induction dashes generalizing a with
  | nil => rfl
  | cons d ds ih =>
    have hd : a.dashboardId ≠ d.id := h d (List.mem_cons_self _ _)
    have hs : setUri a d = a := by simp [setUri, hd]
    rw [List.foldl_cons, hs]
    exact ih a (fun e he => h e (List.mem_cons_of_mem _ he))

/-- The last dashboard with the alert's dashboard id decides the URI. -/
theorem foldl_setUri_last (pre post : List Dashboard) (d : Dashboard) (a : AlertRuleDTO V)
    (hd : a.dashboardId = d.id) (hpost : ∀ e ∈ post, a.dashboardId ≠ e.id) :
    ((pre ++ d :: post).foldl setUri a).dashbboardUri = "db/" ++ d.slug := by
  rw [List.foldl_append, List.foldl_cons]
  have hid : (pre.foldl setUri a).dashboardId = d.id := by
    rw [foldl_setUri_dashboardId]; exact hd
  have hs : (setUri (pre.foldl setUri a) d).dashbboardUri = "db/" ++ d.slug := by
    simp [setUri, hid]
  rw [foldl_setUri_no_match post _ ?_, hs]
  intro e he
  rw [setUri_dashboardId, foldl_setUri_dashboardId]
  exact hpost e he

/-- Splitting a list at the last element that satisfies a predicate. -/
theorem filter_getLast_split {β : Type} (p : β → Bool) (l : List β) (d : β)
    (h : (l.filter p).getLast? = some d) :
    ∃ pre post, l = pre ++ d :: post ∧ p d = true ∧ ∀ e ∈ post, p e = false := by
  induction l using List.reverseRecOn with
  | nil => simp at h
  | append_singleton l x ih =>
    rw [List.filter_append] at h
    by_cases hx : p x = true
    · have hf : List.filter p [x] = [x] := by simp [hx]
      rw [hf, List.getLast?_append] at h
      simp at h
      subst h
      exact ⟨l, [], rfl, hx, by simp⟩
    · have hf : List.filter p [x] = [] := by simp [hx]
      rw [hf, List.append_nil] at h
      obtain ⟨pre, post, hl, hpd, hpost⟩ := ih h
      refine ⟨pre, post ++ [x], by simp [hl], hpd, ?_⟩
      intro e he
      rcases List.mem_append.mp he with he | he
      · exact hpost e he
      · simp at he; subst he; simpa using hx

/-! ## `PutAlertState`: tenant check, zero-org exemption, id mismatch -/

/-- C1: in `PutAlertState`, with path id equal to payload id and a lookup that
succeeds with an alert of non-zero organisation X, a caller of another
organisation gets the denial response (an `ApiError`) and the world is the one
left by the lookup, its trace extended by the lookup only, so the state-update
command is not dispatched; a caller of organisation X has the update command
dispatched right after the lookup and, when that dispatch succeeds with result
`r`, receives `Json(200, r)`. -/
theorem putAlertState_tenant_check (bus : Bus σ V E R) (c : Context)
    (cmd : UpdateAlertStateCommand V) (w : World σ V) (alert : AlertRule V) (s1 : σ)
    (hid : c.paramAlertId = cmd.alertId)
    (hlookup : bus.getAlertById c.paramAlertId w.store = (.ok alert, s1))
    (hX : alert.orgId ≠ 0) :
    (c.orgId ≠ alert.orgId →
      PutAlertState bus c cmd w =
        (.apiError 500 "Alert not found" none,
          ⟨s1, w.trace ++ [Msg.getAlertByIdQuery c.paramAlertId]⟩)) ∧
    (c.orgId = alert.orgId →
      (PutAlertState bus c cmd w).2 =
        ⟨(bus.updateAlertState cmd s1).2,
          w.trace ++ [Msg.getAlertByIdQuery c.paramAlertId,
            Msg.updateAlertStateCommand cmd]⟩ ∧
      ∀ r, (bus.updateAlertState cmd s1).1 = .ok r →
        (PutAlertState bus c cmd w).1 = .json 200 (.updateResult r)) := by
  refine ⟨fun hne => ?_, fun heq => ⟨?_, fun r hr => ?_⟩⟩
  · have hne2 : alert.orgId ≠ c.orgId := fun h => hne h.symm
    simp [PutAlertState, dispatch, hid.symm, hlookup, hX, hne2]
  · cases hu : bus.updateAlertState cmd s1 with
    | mk res s2 =>
      cases res <;> simp [PutAlertState, dispatch, hid.symm, hlookup, heq.symm, hu]
  · cases hu : bus.updateAlertState cmd s1 with
    | mk res s2 =>
      rw [hu] at hr
      simp only at hr
      subst hr
      simp [PutAlertState, dispatch, hid.symm, hlookup, heq.symm, hu]

/-- Instance of C1 on the in-memory bus: alert 5 belongs to organisation 1; the
caller of organisation 2 is denied, the caller of organisation 1 gets the
updated alert. -/
theorem putAlertState_tenant_check_witness :
    PutAlertState memBus ⟨2, 5⟩ ⟨5, "CRIT"⟩ ⟨store0, []⟩ =
      (.apiError 500 "Alert not found" none, ⟨store0, [] ++ [Msg.getAlertByIdQuery 5]⟩) ∧
    (PutAlertState memBus ⟨1, 5⟩ ⟨5, "CRIT"⟩ ⟨store0, []⟩).1 =
      .json 200 (.updateResult { mkAlert 5 1 1 with state := "CRIT" }) :=
  ⟨(putAlertState_tenant_check memBus ⟨2, 5⟩ ⟨5, "CRIT"⟩ ⟨store0, []⟩ (mkAlert 5 1 1) store0
      rfl rfl (by decide)).1 (by decide),
    ((putAlertState_tenant_check memBus ⟨1, 5⟩ ⟨5, "CRIT"⟩ ⟨store0, []⟩ (mkAlert 5 1 1) store0
      rfl rfl (by decide)).2 rfl).2 _ rfl⟩

/-- C2: in `PutAlertState`, with path id equal to payload id and a lookup that
succeeds with an alert of organisation 0, whatever the caller's organisation
the response is not the ownership denial and the update command is dispatched
right after the lookup; the response is `Json(200, r)` when the update succeeds
with `r` and the update's own error otherwise. -/
theorem putAlertState_zero_org_exempt (bus : Bus σ V E R) (c : Context)
    (cmd : UpdateAlertStateCommand V) (w : World σ V) (alert : AlertRule V) (s1 : σ)
    (hid : c.paramAlertId = cmd.alertId)
    (hlookup : bus.getAlertById c.paramAlertId w.store = (.ok alert, s1))
    (h0 : alert.orgId = 0) :
    (PutAlertState bus c cmd w).1 ≠ .apiError 500 "Alert not found" none ∧
    (PutAlertState bus c cmd w).2 =
      ⟨(bus.updateAlertState cmd s1).2,
        w.trace ++ [Msg.getAlertByIdQuery c.paramAlertId,
          Msg.updateAlertStateCommand cmd]⟩ ∧
    (∀ r, (bus.updateAlertState cmd s1).1 = .ok r →
      (PutAlertState bus c cmd w).1 = .json 200 (.updateResult r)) ∧
    (∀ err, (bus.updateAlertState cmd s1).1 = .error err →
      (PutAlertState bus c cmd w).1 = .apiError 500 "Failed to set new state" (some err)) := by
  cases hu : bus.updateAlertState cmd s1 with
  | mk res s2 =>
    cases res <;> simp [PutAlertState, dispatch, hid.symm, hlookup, h0, hu]

/-- Instance of C2 on the in-memory bus: alert 8 has organisation 0 and the
caller of organisation 2 updates it. -/
theorem putAlertState_zero_org_exempt_witness :
    (PutAlertState memBus ⟨2, 8⟩ ⟨8, "PAUSED"⟩ ⟨store0, []⟩).1 =
      .json 200 (.updateResult { mkAlert 8 0 1 with state := "PAUSED" }) :=
  (putAlertState_zero_org_exempt memBus ⟨2, 8⟩ ⟨8, "PAUSED"⟩ ⟨store0, []⟩ (mkAlert 8 0 1)
    store0 rfl rfl rfl).2.2.1 _ rfl

/-- C3: in `PutAlertState`, when the path alert id differs from the payload
alert id the response is `ApiError(401, "Bad Request", nil)` and the world is
unchanged: same store, same trace, so neither the lookup nor the update command
was dispatched. -/
theorem putAlertState_id_mismatch (bus : Bus σ V E R) (c : Context)
    (cmd : UpdateAlertStateCommand V) (w : World σ V)
    (hne : c.paramAlertId ≠ cmd.alertId) :
    PutAlertState bus c cmd w = (.apiError 401 "Bad Request" none, w) := by
  simp [PutAlertState, hne]

/-- Instance of C3: path id 5, payload id 7. -/
theorem putAlertState_id_mismatch_witness :
    PutAlertState memBus ⟨1, 5⟩ ⟨7, "CRIT"⟩ ⟨store0, []⟩ =
      (.apiError 401 "Bad Request" none, ⟨store0, []⟩) :=
  putAlertState_id_mismatch memBus ⟨1, 5⟩ ⟨7, "CRIT"⟩ ⟨store0, []⟩ (by decide)

/-! ## `ValidateOrgAlert` -/

/-- C5: `ValidateOrgAlert` answers 404 when the lookup fails, 403 when the
lookup succeeds and the alert's organisation differs from the requester's, and
writes no response when they are equal; the 403 response differs from the 404
response; in every case the world it leaves is the one left by the lookup
handler, with the lookup as the only message added to the trace. -/
theorem validateOrgAlert_guard (bus : Bus σ V E R) (c : Context) (w : World σ V) :
    (∀ err s1, bus.getAlertById c.paramAlertId w.store = (.error err, s1) →
      (ValidateOrgAlert bus c w).1 = some ⟨404, "Alert not found", none⟩) ∧
    (∀ alert s1, bus.getAlertById c.paramAlertId w.store = (.ok alert, s1) →
      c.orgId ≠ alert.orgId →
      (ValidateOrgAlert bus c w).1 =
        some ⟨403, "You are not allowed to edit/view alert", none⟩) ∧
    (∀ alert s1, bus.getAlertById c.paramAlertId w.store = (.ok alert, s1) →
      c.orgId = alert.orgId →
      (ValidateOrgAlert bus c w).1 = none) ∧
    ((⟨403, "You are not allowed to edit/view alert", none⟩ : JsonApiErr E) ≠
      ⟨404, "Alert not found", none⟩) ∧
    (ValidateOrgAlert bus c w).2 =
      ⟨(bus.getAlertById c.paramAlertId w.store).2,
        w.trace ++ [Msg.getAlertByIdQuery c.paramAlertId]⟩ := by
  refine ⟨?_, ?_, ?_, ?_, ?_⟩
  · intro err s1 h
    simp [ValidateOrgAlert, dispatch, h]
  · intro alert s1 h hne
    simp [ValidateOrgAlert, dispatch, h, hne]
  · intro alert s1 h heq
    simp [ValidateOrgAlert, dispatch, h, heq]
  · intro h
    injection h with h1 _ _
    exact absurd h1 (by decide)
  · cases hl : bus.getAlertById c.paramAlertId w.store with
    | mk res s1 =>
      cases res with
      | error err => simp [ValidateOrgAlert, dispatch, hl]
      | ok alert =>
        by_cases ho : c.orgId = alert.orgId <;> simp [ValidateOrgAlert, dispatch, hl, ho]

/-- Instance of C5 on the in-memory bus: alert 99 does not exist (404), alert 5
of organisation 1 is refused to organisation 2 (403) and passes for
organisation 1. -/
theorem validateOrgAlert_guard_witness :
    (ValidateOrgAlert memBus ⟨1, 99⟩ ⟨store0, []⟩).1 = some ⟨404, "Alert not found", none⟩ ∧
    (ValidateOrgAlert memBus ⟨2, 5⟩ ⟨store0, []⟩).1 =
      some ⟨403, "You are not allowed to edit/view alert", none⟩ ∧
    (ValidateOrgAlert memBus ⟨1, 5⟩ ⟨store0, []⟩).1 = none :=
  ⟨(validateOrgAlert_guard memBus ⟨1, 99⟩ ⟨store0, []⟩).1 "no such alert" store0 rfl,
    (validateOrgAlert_guard memBus ⟨2, 5⟩ ⟨store0, []⟩).2.1 (mkAlert 5 1 1) store0 rfl
      (by decide),
    (validateOrgAlert_guard memBus ⟨1, 5⟩ ⟨store0, []⟩).2.2.1 (mkAlert 5 1 1) store0 rfl rfl⟩

/-! ## `GetAlerts`: decoration with dashboard URIs -/

/-- What the inner loop of `GetAlerts` leaves in `dashbboardUri` of a DTO that
started with the empty URI. -/
theorem foldl_setUri_spec (dashes : List Dashboard) (a : AlertRuleDTO V)
    (ha : a.dashbboardUri = "") :
    (∀ d ∈ dashes, a.dashboardId = d.id →
      ∃ d0, (dashes.filter (fun e => decide (a.dashboardId = e.id))).getLast? = some d0 ∧
        (dashes.foldl setUri a).dashbboardUri = "db/" ++ d0.slug) ∧
    ((∀ d ∈ dashes, a.dashboardId ≠ d.id) → (dashes.foldl setUri a).dashbboardUri = "") := by
  constructor
  · intro d hd hid
    cases hl : (dashes.filter (fun e => decide (a.dashboardId = e.id))).getLast? with
    | none =>
      rw [List.getLast?_eq_none_iff] at hl
      have hmem : d ∈ dashes.filter (fun e => decide (a.dashboardId = e.id)) := by
        simp [List.mem_filter, hd, hid]
      rw [hl] at hmem
      simp at hmem
    | some d0 =>
      obtain ⟨pre, post, hsplit, hp, hpost⟩ := filter_getLast_split _ dashes d0 hl
      refine ⟨d0, rfl, ?_⟩
      rw [hsplit]
      apply foldl_setUri_last
      · simpa using hp
      · intro e he
        simpa using hpost e he
  · intro h
    rw [foldl_setUri_no_match dashes a h, ha]

/-- The response of `GetAlerts` when both dispatches succeed. -/
theorem getAlerts_ok (bus : Bus σ V E R) (c : Context) (w : World σ V)
    (alerts : List (AlertRule V)) (s1 : σ) (dashes : List Dashboard) (s2 : σ)
    (halerts : bus.getAlerts c.orgId w.store = (.ok alerts, s1))
    (hdash : bus.getDashboards (alerts.map (fun a => a.dashboardId)) s1 = (.ok dashes, s2)) :
    (GetAlerts bus c w).1 = .json 200 (.alertDTOs (decorate dashes (alerts.map toDTO))) := by
  simp [GetAlerts, dispatch, halerts, collect_eq, hdash]

/-- C4: when the store returns `alerts` and the resolver returns `dashes`,
`GetAlerts` answers 200 with one DTO per alert, equal to the alert's DTO except
for `dashbboardUri`; an output alert whose dashboardId equals the id of some
returned dashboard has dashbboardUri = "db/" + the slug of a returned dashboard
with that id (the last one in the returned order), which is the slug of every
returned dashboard with that id whenever they carry the same slug, as they do
when the resolver returns one dashboard per id; an output alert whose
dashboardId matches no returned dashboard has the empty URI; with alerts on
dashboards 1, 2, 3 and the resolver returning 1:foo and 3:bar (in either
order) the URIs are "db/foo", "" and "db/bar". -/
theorem getAlerts_decoration (bus : Bus σ V E R) (c : Context) (w : World σ V)
    (alerts : List (AlertRule V)) (s1 : σ) (dashes : List Dashboard) (s2 : σ)
    (halerts : bus.getAlerts c.orgId w.store = (.ok alerts, s1))
    (hdash : bus.getDashboards (alerts.map (fun a => a.dashboardId)) s1 = (.ok dashes, s2)) :
    ∃ out : List (AlertRuleDTO V),
      (GetAlerts bus c w).1 = .json 200 (.alertDTOs out) ∧
      out.map (fun o => { o with dashbboardUri := "" }) = alerts.map toDTO ∧
      (∀ o ∈ out,
        (∀ d ∈ dashes, o.dashboardId = d.id →
          ∃ d0 ∈ dashes, o.dashboardId = d0.id ∧
            o.dashbboardUri = "db/" ++ d0.slug ∧
            (dashes.filter (fun e => decide (o.dashboardId = e.id))).getLast? = some d0) ∧
        (∀ d ∈ dashes, o.dashboardId = d.id →
          (∀ e ∈ dashes, e.id = d.id → e.slug = d.slug) →
          o.dashbboardUri = "db/" ++ d.slug) ∧
        ((∀ d ∈ dashes, o.dashboardId ≠ d.id) → o.dashbboardUri = "")) ∧
      (∀ a1 a2 a3, alerts = [a1, a2, a3] →
        a1.dashboardId = 1 → a2.dashboardId = 2 → a3.dashboardId = 3 →
        dashes = [⟨1, "foo"⟩, ⟨3, "bar"⟩] ∨ dashes = [⟨3, "bar"⟩, ⟨1, "foo"⟩] →
        out.map (fun o => o.dashbboardUri) = ["db/foo", "", "db/bar"]) := by
  refine ⟨decorate dashes (alerts.map toDTO), getAlerts_ok bus c w alerts s1 dashes s2 halerts hdash,
    ?_, ?_, ?_⟩
  · simp only [decorate, List.map_map]
    apply List.map_congr_left
    intro a _
    exact foldl_setUri_eta dashes (toDTO a)
  · intro o ho
    simp only [decorate, List.map_map, List.mem_map, Function.comp] at ho
    obtain ⟨a, _, rfl⟩ := ho
    have hspec := foldl_setUri_spec dashes (toDTO a) rfl
    have hid := foldl_setUri_dashboardId dashes (toDTO a)
    have hlastmem : ∀ d0,
        (dashes.filter (fun e => decide ((toDTO a).dashboardId = e.id))).getLast? = some d0 →
        d0 ∈ dashes ∧ (toDTO a).dashboardId = d0.id := by
      intro d0 hlast
      have hmem := List.mem_of_getLast?_eq_some hlast
      rw [List.mem_filter] at hmem
      exact ⟨hmem.1, by simpa using hmem.2⟩
    refine ⟨?_, ?_, ?_⟩
    · intro d hd hod
      rw [hid] at hod ⊢
      obtain ⟨d0, hlast, huri⟩ := hspec.1 d hd hod
      exact ⟨d0, (hlastmem d0 hlast).1, (hlastmem d0 hlast).2, huri, hlast⟩
    · intro d hd hod hagree
      rw [hid] at hod
      obtain ⟨d0, hlast, huri⟩ := hspec.1 d hd hod
      have hd0 : d0.id = d.id := by
        rw [← (hlastmem d0 hlast).2, hod]
      rw [huri, hagree d0 (hlastmem d0 hlast).1 hd0]
    · intro hno
      rw [hid] at hno
      exact hspec.2 hno
  · intro a1 a2 a3 hal h1 h2 h3 hds
    subst hal
    rcases hds with hds | hds <;> subst hds <;>
      simp [decorate, setUri, toDTO, h1, h2, h3]

/-- Instance of C4 on the in-memory bus: alerts 5, 6, 7 sit on dashboards 1, 2,
3 and the resolver returns dashboards 1 (foo) and 3 (bar). -/
theorem getAlerts_decoration_witness :
    ∃ out : List (AlertRuleDTO String),
      (GetAlerts memBus ⟨1, 0⟩ ⟨store0, []⟩).1 = .json 200 (.alertDTOs out) ∧
      out.map (fun o => o.dashbboardUri) = ["db/foo", "", "db/bar"] := by
  obtain ⟨out, h1, _, _, h4⟩ :=
    getAlerts_decoration memBus ⟨1, 0⟩ ⟨store0, []⟩
      [mkAlert 5 1 1, mkAlert 6 1 2, mkAlert 7 1 3] store0 [⟨1, "foo"⟩, ⟨3, "bar"⟩] store0
      rfl rfl
  exact ⟨out, h1, h4 _ _ _ rfl rfl rfl rfl (Or.inl rfl)⟩

/-- C8 (amended): when the resolver result holds several dashboards with the
same id, each alert on that dashboard id gets dashbboardUri = "db/" + the slug
of the LAST such dashboard in the resolver's returned order: if the result is
`pre ++ d :: post` and no dashboard of `post` has the id of `d`, every output
alert on that id has URI "db/" + slug of `d`, whatever `pre` holds. -/
theorem getAlerts_duplicate_ids_last_wins (bus : Bus σ V E R) (c : Context) (w : World σ V)
    (alerts : List (AlertRule V)) (s1 : σ) (pre post : List Dashboard) (d : Dashboard) (s2 : σ)
    (halerts : bus.getAlerts c.orgId w.store = (.ok alerts, s1))
    (hdash : bus.getDashboards (alerts.map (fun a => a.dashboardId)) s1 =
      (.ok (pre ++ d :: post), s2))
    (hpost : ∀ e ∈ post, e.id ≠ d.id) :
    ∃ out : List (AlertRuleDTO V),
      (GetAlerts bus c w).1 = .json 200 (.alertDTOs out) ∧
      out.map (fun o => o.dashboardId) = alerts.map (fun a => a.dashboardId) ∧
      ∀ o ∈ out, o.dashboardId = d.id → o.dashbboardUri = "db/" ++ d.slug := by
  refine ⟨decorate (pre ++ d :: post) (alerts.map toDTO),
    getAlerts_ok bus c w alerts s1 _ s2 halerts hdash, ?_, ?_⟩
  · simp only [decorate, List.map_map]
    apply List.map_congr_left
    intro a _
    exact foldl_setUri_dashboardId _ (toDTO a)
  · intro o ho hod
    simp only [decorate, List.map_map, List.mem_map, Function.comp] at ho
    obtain ⟨a, _, rfl⟩ := ho
    rw [foldl_setUri_dashboardId] at hod
    apply foldl_setUri_last
    · exact hod
    · intro e he
      rw [hod]
      exact fun h => hpost e he h.symm

/-- Instance of C8 (amended) on the in-memory bus: the resolver returns the
dashboards (1, first) and (1, second); alert 5 on dashboard 1 gets "db/second". -/
theorem getAlerts_duplicate_ids_last_wins_witness :
    ∃ out : List (AlertRuleDTO String),
      (GetAlerts memBus ⟨1, 0⟩ ⟨storeDup, []⟩).1 = .json 200 (.alertDTOs out) ∧
      out.map (fun o => o.dashboardId) = [1] ∧
      ∀ o ∈ out, o.dashboardId = 1 → o.dashbboardUri = "db/" ++ "second" :=
  getAlerts_duplicate_ids_last_wins memBus ⟨1, 0⟩ ⟨storeDup, []⟩ [mkAlert 5 1 1] storeDup
    [⟨1, "first"⟩] [] ⟨1, "second"⟩ storeDup rfl rfl (by simp)

/-- C8 as stated fails: the resolver returns (1, first) and then (1, second);
alert 5 on dashboard 1 does not get the URI of the first of them. -/
theorem getAlerts_first_wins_counterexample :
    memBus.getDashboards [1] storeDup = (.ok [⟨1, "first"⟩, ⟨1, "second"⟩], storeDup) ∧
    (GetAlerts memBus ⟨1, 0⟩ ⟨storeDup, []⟩).1 =
      .json 200 (.alertDTOs [{ toDTO (mkAlert 5 1 1) with dashbboardUri := "db/second" }]) ∧
    (GetAlerts memBus ⟨1, 0⟩ ⟨storeDup, []⟩).1 ≠
      .json 200 (.alertDTOs [{ toDTO (mkAlert 5 1 1) with dashbboardUri := "db/first" }]) := by
  refine ⟨rfl, rfl, ?_⟩
  decide

/-! ## `GetAlerts`: the ids passed to the resolver -/

/-- C10 (amended): when the store returns `alerts`, `GetAlerts` dispatches
exactly two messages, the alert query and then one dashboard query; the id list
of that query has one entry per alert, in the order of the alerts, so it
contains every dashboardId an alert refers to, and an id appears in it as many
times as there are alerts on that dashboard (not once). -/
theorem getAlerts_resolver_ids (bus : Bus σ V E R) (c : Context) (w : World σ V)
    (alerts : List (AlertRule V)) (s1 : σ)
    (halerts : bus.getAlerts c.orgId w.store = (.ok alerts, s1)) :
    ∃ ids : List Int,
      (GetAlerts bus c w).2.trace =
        w.trace ++ [Msg.getAlertsQuery c.orgId, Msg.getDashboardsQuery ids] ∧
      ids = alerts.map (fun a => a.dashboardId) ∧
      (∀ a ∈ alerts, a.dashboardId ∈ ids) ∧
      (∀ k, ids.count k = (alerts.filter (fun a => decide (a.dashboardId = k))).length) := by
  refine ⟨alerts.map (fun a => a.dashboardId), ?_, rfl, ?_, ?_⟩
  · cases hd : bus.getDashboards (alerts.map (fun a => a.dashboardId)) s1 with
    | mk res s2 =>
      cases res <;> simp [GetAlerts, dispatch, halerts, collect_eq, hd]
  · intro a ha
    exact List.mem_map_of_mem _ ha
  · intro k
    exact count_dashboardId alerts k

/-- Instance of C10 (amended) on the in-memory bus: organisation 1 has alerts
on dashboards 1, 2, 3 and the resolver is asked once, for the ids 1, 2, 3. -/
theorem getAlerts_resolver_ids_witness :
    ∃ ids : List Int,
      (GetAlerts memBus ⟨1, 0⟩ ⟨store0, []⟩).2.trace =
        [] ++ [Msg.getAlertsQuery 1, Msg.getDashboardsQuery ids] ∧
      ids = [1, 2, 3] := by
  obtain ⟨ids, h1, h2, _, _⟩ :=
    getAlerts_resolver_ids memBus ⟨1, 0⟩ ⟨store0, []⟩
      [mkAlert 5 1 1, mkAlert 6 1 2, mkAlert 7 1 3] store0 rfl
  exact ⟨ids, h1, h2⟩

/-- C10 as stated fails: organisation 1 has two alerts on dashboard 4 and the
id list passed to the resolver is [4, 4], which holds the id 4 twice. -/
theorem getAlerts_distinct_ids_counterexample :
    (GetAlerts memBus ⟨1, 0⟩ ⟨storeShared, []⟩).2.trace =
      [Msg.getAlertsQuery 1, Msg.getDashboardsQuery [4, 4]] ∧
    ¬ ([4, 4] : List Int).Nodup ∧
    ([4, 4] : List Int).count 4 = 2 :=
  ⟨rfl, by decide, by decide⟩

/-! ## `GetAlert` and `DelAlert` behind the guard -/

/-- C6: for an alert of organisation X whose lookup succeeds, the guarded
`GetAlert` and the guarded `DelAlert` answer a caller of another organisation
with the 403 of `ValidateOrgAlert`; the handler does not run, so no alert is
returned and the delete command is not dispatched: the trace grows by the
guard's lookup only.  For a caller of organisation X the guard passes; then
`GetAlert` returns with status 200 the alert its own lookup finds (the same
alert when the lookup leaves the store unchanged), and `DelAlert` with a
non-zero alert id dispatches the delete command and, when that succeeds,
returns the echoed alert id with status 200. -/
theorem guarded_getAlert_delAlert_tenant_check (bus : Bus σ V E R) (c : Context)
    (w : World σ V) (alert : AlertRule V) (s1 : σ)
    (hlookup : bus.getAlertById c.paramAlertId w.store = (.ok alert, s1)) :
    (c.orgId ≠ alert.orgId →
      guarded GetAlert bus c w =
        (.error ⟨403, "You are not allowed to edit/view alert", none⟩,
          ⟨s1, w.trace ++ [Msg.getAlertByIdQuery c.paramAlertId]⟩) ∧
      guarded DelAlert bus c w =
        (.error ⟨403, "You are not allowed to edit/view alert", none⟩,
          ⟨s1, w.trace ++ [Msg.getAlertByIdQuery c.paramAlertId]⟩)) ∧
    (c.orgId = alert.orgId →
      (∀ found s2, bus.getAlertById c.paramAlertId s1 = (.ok found, s2) →
        guarded GetAlert bus c w =
          (.ok (.json 200 (.alert found)),
            ⟨s2, w.trace ++ [Msg.getAlertByIdQuery c.paramAlertId,
              Msg.getAlertByIdQuery c.paramAlertId]⟩)) ∧
      (s1 = w.store →
        guarded GetAlert bus c w =
          (.ok (.json 200 (.alert alert)),
            ⟨w.store, w.trace ++ [Msg.getAlertByIdQuery c.paramAlertId,
              Msg.getAlertByIdQuery c.paramAlertId]⟩)) ∧
      (c.paramAlertId ≠ 0 →
        ∀ s2, bus.deleteAlert c.paramAlertId s1 = (.ok (), s2) →
          guarded DelAlert bus c w =
            (.ok (.json 200 (.alertIdEcho c.paramAlertId)),
              ⟨s2, w.trace ++ [Msg.getAlertByIdQuery c.paramAlertId,
                Msg.deleteAlertCommand c.paramAlertId]⟩))) := by
  constructor
  · intro hne
    have hv : ValidateOrgAlert bus c w =
        (some ⟨403, "You are not allowed to edit/view alert", none⟩,
          ⟨s1, w.trace ++ [Msg.getAlertByIdQuery c.paramAlertId]⟩) := by
      simp [ValidateOrgAlert, dispatch, hlookup, hne]
    constructor <;> simp [guarded, hv]
  · intro heq
    have hv : ValidateOrgAlert bus c w =
        (none, ⟨s1, w.trace ++ [Msg.getAlertByIdQuery c.paramAlertId]⟩) := by
      simp [ValidateOrgAlert, dispatch, hlookup, heq]
    have hget : ∀ found s2, bus.getAlertById c.paramAlertId s1 = (.ok found, s2) →
        guarded GetAlert bus c w =
          (.ok (.json 200 (.alert found)),
            ⟨s2, w.trace ++ [Msg.getAlertByIdQuery c.paramAlertId,
              Msg.getAlertByIdQuery c.paramAlertId]⟩) := by
      intro found s2 h2
      simp [guarded, hv, GetAlert, dispatch, h2]
    refine ⟨hget, ?_, ?_⟩
    · intro hs
      have h2 : bus.getAlertById c.paramAlertId s1 = (.ok alert, w.store) := by
        rw [hs]; rw [hs] at hlookup; exact hlookup
      exact hget alert w.store h2
    · intro hid s2 hdel
      simp [guarded, hv, DelAlert, dispatch, hid, hdel]

/-- Instance of C6 on the in-memory bus: alert 5 belongs to organisation 1; the
caller of organisation 2 gets 403 from both guarded operations, the caller of
organisation 1 gets the alert and the echoed id. -/
theorem guarded_getAlert_delAlert_tenant_check_witness :
    (guarded GetAlert memBus ⟨2, 5⟩ ⟨store0, []⟩ =
        (.error ⟨403, "You are not allowed to edit/view alert", none⟩,
          ⟨store0, [] ++ [Msg.getAlertByIdQuery 5]⟩) ∧
      guarded DelAlert memBus ⟨2, 5⟩ ⟨store0, []⟩ =
        (.error ⟨403, "You are not allowed to edit/view alert", none⟩,
          ⟨store0, [] ++ [Msg.getAlertByIdQuery 5]⟩)) ∧
    guarded GetAlert memBus ⟨1, 5⟩ ⟨store0, []⟩ =
      (.ok (.json 200 (.alert (mkAlert 5 1 1))),
        ⟨store0, [] ++ [Msg.getAlertByIdQuery 5, Msg.getAlertByIdQuery 5]⟩) ∧
    guarded DelAlert memBus ⟨1, 5⟩ ⟨store0, []⟩ =
      (.ok (.json 200 (.alertIdEcho 5)),
        ⟨⟨[mkAlert 6 1 2, mkAlert 7 1 3, mkAlert 8 0 1], store0.dashboards⟩,
          [] ++ [Msg.getAlertByIdQuery 5, Msg.deleteAlertCommand 5]⟩) :=
  ⟨(guarded_getAlert_delAlert_tenant_check memBus ⟨2, 5⟩ ⟨store0, []⟩ (mkAlert 5 1 1) store0
      rfl).1 (by decide),
    ((guarded_getAlert_delAlert_tenant_check memBus ⟨1, 5⟩ ⟨store0, []⟩ (mkAlert 5 1 1) store0
      rfl).2 rfl).2.1 rfl,
    ((guarded_getAlert_delAlert_tenant_check memBus ⟨1, 5⟩ ⟨store0, []⟩ (mkAlert 5 1 1) store0
      rfl).2 rfl).2.2 (by decide) _ rfl⟩

/-! ## `PutAlertState`: failure responses and the ownership rule -/

/-- C7: the failure responses of `PutAlertState` at concrete requests, next to
those of `ValidateOrgAlert` on the same requests.  The unknown alert 99 is
answered with `ApiError(500, "Failed to get alertstate", err)` where the guard
answers 404; the tenant mismatch on alert 5 (organisation 1, caller of
organisation 2) is answered with `ApiError(500, "Alert not found", nil)` where
the guard answers 403; the two failures of `PutAlertState` carry the same
status code, neither 404 nor 403; the id mismatch (path 5, payload 7) is
answered with status 401. -/
theorem putAlertState_failure_kinds_divergence :
    memBus.getAlertById 99 store0 = (.error "no such alert", store0) ∧
    (PutAlertState memBus ⟨1, 99⟩ ⟨99, "CRIT"⟩ ⟨store0, []⟩).1 =
      .apiError 500 "Failed to get alertstate" (some "no such alert") ∧
    (ValidateOrgAlert memBus ⟨1, 99⟩ ⟨store0, []⟩).1 = some ⟨404, "Alert not found", none⟩ ∧
    memBus.getAlertById 5 store0 = (.ok (mkAlert 5 1 1), store0) ∧
    (PutAlertState memBus ⟨2, 5⟩ ⟨5, "CRIT"⟩ ⟨store0, []⟩).1 =
      .apiError 500 "Alert not found" none ∧
    (ValidateOrgAlert memBus ⟨2, 5⟩ ⟨store0, []⟩).1 =
      some ⟨403, "You are not allowed to edit/view alert", none⟩ ∧
    (PutAlertState memBus ⟨1, 99⟩ ⟨99, "CRIT"⟩ ⟨store0, []⟩).1.status =
      (PutAlertState memBus ⟨2, 5⟩ ⟨5, "CRIT"⟩ ⟨store0, []⟩).1.status ∧
    (PutAlertState memBus ⟨1, 99⟩ ⟨99, "CRIT"⟩ ⟨store0, []⟩).1.status ≠ 404 ∧
    (PutAlertState memBus ⟨2, 5⟩ ⟨5, "CRIT"⟩ ⟨store0, []⟩).1.status ≠ 403 ∧
    (PutAlertState memBus ⟨1, 5⟩ ⟨7, "CRIT"⟩ ⟨store0, []⟩).1.status = 401 :=
  ⟨rfl, rfl, rfl, rfl, rfl, rfl, rfl, by decide, by decide, rfl⟩

/-- C9 (amended): for a lookup that succeeds, `PutAlertState` (path id equal to
payload id) denies exactly when the alert's organisation is non-zero and
differs from the caller's, and `ValidateOrgAlert` denies exactly when the two
organisations differ.  Hence the two decisions agree whenever the alert's
organisation is non-zero; when it is zero, `PutAlertState` never denies, while
`ValidateOrgAlert` denies every caller of a non-zero organisation. -/
theorem ownership_rules_compared (bus : Bus σ V E R) (c : Context)
    (cmd : UpdateAlertStateCommand V) (w : World σ V) (alert : AlertRule V) (s1 : σ)
    (hid : c.paramAlertId = cmd.alertId)
    (hlookup : bus.getAlertById c.paramAlertId w.store = (.ok alert, s1)) :
    ((PutAlertState bus c cmd w).1 = .apiError 500 "Alert not found" none ↔
      (alert.orgId ≠ 0 ∧ alert.orgId ≠ c.orgId)) ∧
    ((ValidateOrgAlert bus c w).1 =
        some ⟨403, "You are not allowed to edit/view alert", none⟩ ↔
      c.orgId ≠ alert.orgId) ∧
    (alert.orgId ≠ 0 →
      ((PutAlertState bus c cmd w).1 = .apiError 500 "Alert not found" none ↔
        (ValidateOrgAlert bus c w).1 =
          some ⟨403, "You are not allowed to edit/view alert", none⟩)) ∧
    (alert.orgId = 0 →
      (PutAlertState bus c cmd w).1 ≠ .apiError 500 "Alert not found" none ∧
      ((ValidateOrgAlert bus c w).1 =
          some ⟨403, "You are not allowed to edit/view alert", none⟩ ↔
        c.orgId ≠ 0)) := by
  have hput : (PutAlertState bus c cmd w).1 = .apiError 500 "Alert not found" none ↔
      (alert.orgId ≠ 0 ∧ alert.orgId ≠ c.orgId) := by
    by_cases hd : alert.orgId ≠ 0 ∧ alert.orgId ≠ c.orgId
    · simp [PutAlertState, dispatch, hid.symm, hlookup, hd]
    · cases hu : bus.updateAlertState cmd s1 with
      | mk res s2 =>
        cases res <;> simp [PutAlertState, dispatch, hid.symm, hlookup, hd, hu]
  have hval : (ValidateOrgAlert bus c w).1 =
      some ⟨403, "You are not allowed to edit/view alert", none⟩ ↔ c.orgId ≠ alert.orgId := by
    by_cases hd : c.orgId = alert.orgId <;> simp [ValidateOrgAlert, dispatch, hlookup, hd]
  refine ⟨hput, hval, ?_, ?_⟩
  · intro h0
    rw [hput, hval]
    constructor
    · exact fun h e => h.2 e.symm
    · exact fun h => ⟨h0, fun e => h e.symm⟩
  · intro h0
    constructor
    · intro h
      exact (hput.mp h).1 h0
    · rw [hval, h0]

/-- Instance of C9 (amended) on the in-memory bus: on alert 5 of organisation 1
and a caller of organisation 2 both checks deny. -/
theorem ownership_rules_compared_witness :
    ((PutAlertState memBus ⟨2, 5⟩ ⟨5, "CRIT"⟩ ⟨store0, []⟩).1 =
        .apiError 500 "Alert not found" none ↔
      (ValidateOrgAlert memBus ⟨2, 5⟩ ⟨store0, []⟩).1 =
        some ⟨403, "You are not allowed to edit/view alert", none⟩) :=
  (ownership_rules_compared memBus ⟨2, 5⟩ ⟨5, "CRIT"⟩ ⟨store0, []⟩ (mkAlert 5 1 1) store0
    rfl rfl).2.2.1 (by decide)

/-- C9 as stated fails: alert 8 has organisation 0 and the caller organisation
2; `ValidateOrgAlert` denies with 403 while `PutAlertState` dispatches the
update and answers 200. -/
theorem ownership_rule_counterexample :
    memBus.getAlertById 8 store0 = (.ok (mkAlert 8 0 1), store0) ∧
    (ValidateOrgAlert memBus ⟨2, 8⟩ ⟨store0, []⟩).1 =
      some ⟨403, "You are not allowed to edit/view alert", none⟩ ∧
    (PutAlertState memBus ⟨2, 8⟩ ⟨8, "PAUSED"⟩ ⟨store0, []⟩).1 =
      .json 200 (.updateResult { mkAlert 8 0 1 with state := "PAUSED" }) ∧
    (PutAlertState memBus ⟨2, 8⟩ ⟨8, "PAUSED"⟩ ⟨store0, []⟩).2.trace =
      [Msg.getAlertByIdQuery 8, Msg.updateAlertStateCommand ⟨8, "PAUSED"⟩] :=
  ⟨rfl, rfl, rfl, rfl⟩

end Alerting
